import Mathlib

/-!
Verification of the flash-sale order service core
(`internal/service/order_service.go` and the repository layer) against its
natural-language specification.

Shallow embedding conventions:
* Go `int64` is `Int`. Go `float64` money fields are modelled as `Int`:
  every claim under study concerns data flow — which values are copied,
  summed, persisted or dropped — never floating-point rounding, and all
  concrete scenario amounts are integral.
* The HTTP gateways are oracles `Int → GetResult α`: a call either fails at
  transport, or yields a status code together with an optionally decoded
  body (`none` models a body that fails to decode).
* The two result channels of `CreateOrder` are modelled by the lists of
  messages drained from them; their order is arbitrary (the goroutine
  arrival order), so theorems quantify over the drained lists.
* Fallible repository and bus operations take explicit fault flags; the
  store is an association list from order identity to the persisted
  aggregate (header plus line-item rows).
-/

namespace OrderSvc

/-- Line item (`entity.OrderRequest`): fields per the `product_requests`
table and the uses in `order_service.go`. -/
structure OrderRequest where
  id : Int
  orderID : Int
  productID : Int
  quantity : Int
  markUp : Int
  discount : Int
  finalPrice : Int
  deriving Repr, DecidableEq

/-- Order aggregate (`entity.Order`): fields per the in-memory repository
literal and the `orders` table. -/
structure Order where
  id : Int
  userID : Int
  productRequests : List OrderRequest
  quantity : Int
  totalPrice : Int
  status : String
  totalMarkUp : Int
  totalDiscount : Int
  deriving Repr, DecidableEq

/-- Pricing quote (`entity.Pricing`). -/
structure Pricing where
  productID : Int
  markUp : Int
  discount : Int
  finalPrice : Int
  deriving Repr, DecidableEq

/-- Outcome of one HTTP GET against a gateway: transport failure, or a
status code with an optionally decoded body (`none` = decode failure). -/
inductive GetResult (α : Type) where
  | transportError
  | response (statusCode : Int) (body : Option α)
  deriving Repr, DecidableEq

/-- Decoded stock body: Go decodes into `map[string]int`. -/
abbrev StockBody := List (String × Int)

/-- The two consumed gateways. -/
structure Gateways where
  stock : Int → GetResult StockBody
  pricing : Int → GetResult Pricing

/-- Typed rendering of the gateway error strings built in
`checkProductStock` / `getPricing`. -/
inductive GatewayErr where
  | getFailed (productID : Int)
  | badStatus (productID : Int) (statusCode : Int)
  | decodeFailed (productID : Int)
  | stockMissing (productID : Int)
  deriving Repr, DecidableEq

/-- Embedding of `checkProductStock`: returns `(available, error)` exactly as the Go
function returns `(bool, error)` — `false` accompanies every error. -/
def checkProductStock (gs : Int → GetResult StockBody) (productID quantity : Int) :
    Bool × Option GatewayErr :=
  match gs productID with
  | .transportError => (false, some (.getFailed productID))
  | .response statusCode body =>
    if statusCode ≠ 200 then (false, some (.badStatus productID statusCode))
    else
      match body with
      | none => (false, some (.decodeFailed productID))
      | some stockResponse =>
        match stockResponse.lookup "stock" with
        | none => (false, some (.stockMissing productID))
        | some productStock => (decide (productStock ≥ quantity), none)

/-- Embedding of `getPricing`: returns the decoded quote or a gateway error (the Go
function returns a nil pointer exactly when it returns an error). -/
def getPricing (gp : Int → GetResult Pricing) (productID : Int) :
    Except GatewayErr Pricing :=
  match gp productID with
  | .transportError => .error (.getFailed productID)
  | .response statusCode body =>
    if statusCode ≠ 200 then .error (.badStatus productID statusCode)
    else
      match body with
      | none => .error (.decodeFailed productID)
      | some pricing => .ok pricing

/-- Message type `entity.AvailabilityChannel`. -/
structure AvailabilityChannel where
  productID : Int
  available : Bool
  error : Option GatewayErr
  deriving Repr, DecidableEq

/-- Message type `entity.PricingChannel`. -/
structure PricingChannel where
  productID : Int
  finalPrice : Int
  markUp : Int
  discount : Int
  error : Option GatewayErr
  deriving Repr, DecidableEq

/-- The availability goroutine body of `CreateOrder`: always sends one
message, folding any error into the message. -/
def availabilityWorker (gs : Int → GetResult StockBody) (r : OrderRequest) :
    AvailabilityChannel :=
  let res := checkProductStock gs r.productID r.quantity
  { productID := r.productID, available := res.1, error := res.2 }

/-- The pricing goroutine body of `CreateOrder`. When `getPricing` fails it
returns a nil `*entity.Pricing`, and the goroutine immediately reads
`pricing.FinalPrice`: a nil-pointer dereference, i.e. a runtime panic, so
no message is ever sent on the pricing channel in that case. `none` models
that panic; `some` is the message actually sent. -/
def pricingWorker (gp : Int → GetResult Pricing) (r : OrderRequest) :
    Option PricingChannel :=
  match getPricing gp r.productID with
  | .error _ => none
  | .ok pricing =>
    some { productID := r.productID, finalPrice := pricing.finalPrice,
           markUp := pricing.markUp, discount := pricing.discount, error := none }

/-- Typed rendering of the error strings built by the service layer. -/
inductive SvcError where
  | stockCheckFailed (productID : Int) (e : GatewayErr)
  | insufficientStock (productID : Int)
  | pricingFailed (productID : Int) (e : GatewayErr)
  | txFailed
  | updateFailed
  | cancelFailed
  | retrieveFailed
  | orderNotFound (id : Int)
  | publishFailed (keyword : String)
  deriving Repr, DecidableEq

/-- The enrichment of one matching line-item copy (lines 108–110 of
`CreateOrder`): Go's `range` yields a value copy of the slice element, so
this enriched copy is written to neither the slice nor anything else — only
its `finalPrice` is read on the next line for the running total. -/
def enrichCopy (r : OrderRequest) (p : PricingChannel) : OrderRequest :=
  { r with discount := p.discount, markUp := p.markUp, finalPrice := p.finalPrice }

/-- The inner identity-scan loop (lines 106–113): for every line item whose
product identity matches the pricing message, add the enriched copy's final
price to the running total. The copies themselves are discarded, so the
order's line items are left unchanged. -/
def accumulateMatching (reqs : List OrderRequest) (p : PricingChannel) (acc : Int) : Int :=
  reqs.foldl
    (fun totalPrice r =>
      if r.productID = p.productID then totalPrice + (enrichCopy r p).finalPrice
      else totalPrice)
    acc

/-- The drain loop (lines 89–114): one `(availability, pricing)` pair per
iteration, checked in priority order; on success the pricing message is
correlated to line items by identity scan. Returns the accumulated
`totalPrice` local variable (which the source then never uses). -/
def drainLoop (reqs : List OrderRequest) :
    List (AvailabilityChannel × PricingChannel) → Int → Except SvcError Int
  | [], totalPrice => .ok totalPrice
  | (availabilityResult, pricingResult) :: rest, totalPrice =>
    match availabilityResult.error with
    | some e => .error (.stockCheckFailed availabilityResult.productID e)
    | none =>
      if !availabilityResult.available then
        .error (.insufficientStock availabilityResult.productID)
      else
        match pricingResult.error with
        | some e => .error (.pricingFailed pricingResult.productID e)
        | none => drainLoop reqs rest (accumulateMatching reqs pricingResult totalPrice)

/-- Persisted store: order identity ↦ persisted aggregate (header row plus
its line-item rows, kept inside the `Order` value). -/
abbrev Store := List (Int × Order)

/-- Row lookup by primary key: the first stored row with this identity
(gorm `First` with `id = ?`). -/
def storeLookup : Store → Int → Option Order
  | [], _ => none
  | kv :: rest, id => if kv.1 = id then some kv.2 else storeLookup rest id

/-- Semantics of `gorm.Save`: update the row with this primary key if present,
insert otherwise (spec §4.2: "upsert by identity"). -/
def storeUpsert (st : Store) (id : Int) (o : Order) : Store :=
  if (storeLookup st id).isSome then
    st.map (fun kv => if kv.1 = id then (id, o) else kv)
  else
    (id, o) :: st

/-- Fault-injection flags for the fallible collaborators. -/
structure Faults where
  txFail : Bool
  getFail : Bool
  updateFail : Bool
  publishFail : Bool
  deriving Repr, DecidableEq

/-- No injected faults. -/
def noFaults : Faults := ⟨false, false, false, false⟩

/-- Repository `GetOrderByID` (gorm variant): a DB error is `.error`; a
missing row is translated to `(nil, nil)`, i.e. `.ok none`. -/
def repoGetOrderByID (dbFail : Bool) (st : Store) (id : Int) :
    Except Unit (Option Order) :=
  if dbFail then .error () else .ok (storeLookup st id)

/-- Repository `UpdateOrder` (gorm variant): `Save` the row, returning the
same order on success — the success value is never `nil`. -/
def repoUpdateOrder (dbFail : Bool) (st : Store) (o : Order) :
    Except Unit (Option Order × Store) :=
  if dbFail then .error () else .ok (some o, storeUpsert st o.id o)

/-- Embedding of `mapOrderRequestWithOrderID`: copies of the line items stamped with the
order's identity (the in-memory items themselves are not restamped). -/
def mapOrderRequestWithOrderID (order : Order) : List OrderRequest :=
  order.productRequests.map (fun r => { r with orderID := order.id })

/-- Modelled from the spec: the transactional repository
(`WithTransaction` / `CreateOrderTx` / `CreateOrderRequestTx`) is not under
`src/`. Per §4.2, one atomic transaction inserts the order header —
assigning its identity — then the line items stamped with that identity,
committing only if both inserts succeed; any failure aborts with no
partial write. Identity assignment on first persistence is simulated as in
the repository's in-memory variant: one more than the number of stored
orders. `createdAggregate` is the committed row pair (assigned identity,
header with its stamped line-item rows). -/
def createdAggregate (st : Store) (order : Order) : Int × Order :=
  let newId : Int := Int.ofNat st.length + 1
  let header := { order with id := newId }
  (newId, { header with productRequests := mapOrderRequestWithOrderID header })

/-- Modelled from the spec: `WithTransaction` composed with `CreateOrderTx`
and `CreateOrderRequestTx` (not under `src/`), per §4.2 — commit the
aggregate of `createdAggregate` atomically, or fail with no partial
write. -/
def repoCreateTxn (txFail : Bool) (st : Store) (order : Order) :
    Except Unit (Int × Store) :=
  if txFail then .error ()
  else .ok ((createdAggregate st order).1, createdAggregate st order :: st)

/-- A message on the event bus. -/
structure KafkaMessage where
  key : String
  value : String
  deriving Repr, DecidableEq

/-- Embedding of `publishOrderCreatedEvent` (used for all three transitions): key
`order.<keyword>.<id>`, payload the serialized order. `enc` stands for
`json.Marshal` restricted to `entity.Order`. -/
def publishOrderCreatedEvent (enc : Order → String) (order : Order)
    (keyword : String) : KafkaMessage :=
  { key := "order." ++ keyword ++ "." ++ toString order.id, value := enc order }

/-- Result of one service operation: the Go return value (order or error),
the store afterwards, and the messages delivered to the bus. -/
inductive Outcome where
  | ok (o : Order)
  | err (e : SvcError)
  | panicked
  deriving Repr, DecidableEq

/-- Embedding of `CreateOrder` from the drain loop on (lines 89–144): the drained pairs
are a parameter because channel arrival order is scheduler-chosen. The
total accumulated by the drain loop is dropped, exactly as in the source —
`totalPrice` is never written to the order — and the persisted aggregate is
the caller's order unchanged apart from identity assignment and row
stamping. -/
def createOrderService (enc : Order → String) (faults : Faults) (st : Store)
    (order : Order) (drained : List (AvailabilityChannel × PricingChannel)) :
    Outcome × Store × List KafkaMessage :=
  match drainLoop order.productRequests drained 0 with
  | .error e => (.err e, st, [])
  | .ok _totalPrice =>
    match repoCreateTxn faults.txFail st order with
    | .error _ => (.err .txFailed, st, [])
    | .ok (newId, st') =>
      let createdOrder := { order with id := newId }
      if faults.publishFail then (.err (.publishFailed "created"), st', [])
      else
        (.ok createdOrder, st',
         [publishOrderCreatedEvent enc createdOrder "created"])

/-- One step of `UpdateOrder`'s stock re-check loop body (lines 160–171). -/
def itemStockError (gs : Int → GetResult StockBody) (r : OrderRequest) :
    Option SvcError :=
  match checkProductStock gs r.productID r.quantity with
  | (_, some e) => some (.stockCheckFailed r.productID e)
  | (available, none) =>
    if !available then some (.insufficientStock r.productID) else none

/-- The stock re-check loop of `UpdateOrder`: first failing item wins. -/
def recheckStock (gs : Int → GetResult StockBody) :
    List OrderRequest → Option SvcError
  | [] => none
  | r :: rest =>
    match itemStockError gs r with
    | some e => some e
    | none => recheckStock gs rest

/-- Embedding of `UpdateOrder` (lines 155–191): stock re-check only when the submitted
status is `"Paid"`, then upsert, then publish `updated`. -/
def updateOrderService (enc : Order → String) (faults : Faults) (g : Gateways)
    (st : Store) (order : Order) : Outcome × Store × List KafkaMessage :=
  let gate :=
    if order.status = "Paid" then recheckStock g.stock order.productRequests
    else none
  match gate with
  | some e => (.err e, st, [])
  | none =>
    match repoUpdateOrder faults.updateFail st order with
    | .error _ => (.err .updateFailed, st, [])
    | .ok (none, st') => (.err (.orderNotFound order.id), st', [])
    | .ok (some updatedOrder, st') =>
      if faults.publishFail then (.err (.publishFailed "updated"), st', [])
      else
        (.ok updatedOrder, st',
         [publishOrderCreatedEvent enc updatedOrder "updated"])

/-- Embedding of `CancelOrder` (lines 201–229): read by identity, set status to
`"cancelled"`, write back through the update path, publish `cancelled`.
The repository's success value is never `nil`, so the `none` row branch —
where the source would dereference a nil pointer while publishing — is
unreachable; it is recorded as `panicked`. -/
def cancelOrderService (enc : Order → String) (faults : Faults) (st : Store)
    (orderId : Int) : Outcome × Store × List KafkaMessage :=
  match repoGetOrderByID faults.getFail st orderId with
  | .error _ => (.err .retrieveFailed, st, [])
  | .ok none => (.err (.orderNotFound orderId), st, [])
  | .ok (some order) =>
    let pending := { order with status := "cancelled" }
    match repoUpdateOrder faults.updateFail st pending with
    | .error _ => (.err .cancelFailed, st, [])
    | .ok (none, st') => (.panicked, st', [])
    | .ok (some cancelledOrder, st') =>
      if faults.publishFail then (.err (.publishFailed "cancelled"), st', [])
      else
        (.ok cancelledOrder, st',
         [publishOrderCreatedEvent enc cancelledOrder "cancelled"])

/-! Concrete fixtures: the spec §8 scenario (products 10 and 20, stock 5
and 1, quotes 50 and 30) with a caller-chosen total of 100. -/

def stockOK : Int → GetResult StockBody := fun pid =>
  if pid = 10 then .response 200 (some [("stock", 5)])
  else if pid = 20 then .response 200 (some [("stock", 1)])
  else .response 404 none

def pricingOK : Int → GetResult Pricing := fun pid =>
  if pid = 10 then .response 200 (some ⟨10, 0, 0, 50⟩)
  else if pid = 20 then .response 200 (some ⟨20, 0, 0, 30⟩)
  else .response 404 none

def pricingBad : Int → GetResult Pricing := fun _ => .response 500 none

def req10 : OrderRequest := ⟨0, 0, 10, 2, 0, 0, 0⟩

def req20 : OrderRequest := ⟨0, 0, 20, 1, 0, 0, 0⟩

def demoOrder : Order := ⟨0, 7, [req10, req20], 3, 100, "created", 0, 0⟩

def demoEnc : Order → String := fun o => toString o.id

def priceMsg10 : PricingChannel := ⟨10, 50, 0, 0, none⟩

def priceMsg20 : PricingChannel := ⟨20, 30, 0, 0, none⟩

def demoDrained : List (AvailabilityChannel × PricingChannel) :=
  [(availabilityWorker stockOK req10, priceMsg10),
   (availabilityWorker stockOK req20, priceMsg20)]

/-- The aggregate `createOrderService` persists for `demoOrder` on an empty
store: identity 1, stamped rows, caller's totals untouched. -/
def storedDemo : Order :=
  { demoOrder with
    id := 1
    productRequests := [{ req10 with orderID := 1 }, { req20 with orderID := 1 }] }

/-- Equality of `Except` values is decidable; used to evaluate the model on the
concrete scenarios below. -/
instance {ε α : Type} [DecidableEq ε] [DecidableEq α] : DecidableEq (Except ε α) := fun x y =>
  match x, y with
  | .ok a, .ok b => decidable_of_iff (a = b) (by simp)
  | .error a, .error b => decidable_of_iff (a = b) (by simp)
  | .ok _, .error _ => isFalse (by simp)
  | .error _, .ok _ => isFalse (by simp)

def demoGateways : Gateways := ⟨stockOK, pricingOK⟩

/-- An order persisted with terminal status, for the cancellation claims. -/
def cancelledStored : Order := ⟨1, 7, [], 0, 50, "cancelled", 0, 0⟩

/-- The same order resubmitted through `UpdateOrder` with a live status. -/
def reactivated : Order := ⟨1, 7, [], 0, 50, "updated", 0, 0⟩

/-- Stock gateway reporting zero stock for every product. -/
def stockEmpty : Int → GetResult StockBody := fun _ => .response 200 (some [("stock", 0)])

/-- The demo order resubmitted into the paid state. -/
def paidOrder : Order := { demoOrder with id := 1, status := "Paid" }

/-- Every message actually sent on the pricing channel carries `error =
none`: when `getPricing` fails, the goroutine dereferences its nil result
and panics before sending, so the drain loop's pricing-error branch can
never fire. -/
theorem pricingWorker_error_none (gp : Int → GetResult Pricing)
    (r : OrderRequest) (m : PricingChannel)
    (h : pricingWorker gp r = some m) : m.error = none := by
  unfold pricingWorker at h
  cases hg : getPricing gp r.productID <;> rw [hg] at h
  · exact absurd h (by simp)
  · cases h
    rfl

/-- Looking up the replaced key after an in-place association-list update
yields the new value. -/
theorem lookup_replace (st : Store) (id : Int) (o : Order)
    (h : (storeLookup st id).isSome = true) :
    storeLookup (st.map fun kv => if kv.1 = id then (id, o) else kv) id = some o := by
  induction st with
  | nil => simp [storeLookup] at h
  | cons kv t ih =>
    obtain ⟨k, v⟩ := kv
    by_cases hk : k = id
    · subst hk
      simp [storeLookup]
    · have h' : (storeLookup t id).isSome = true := by
        simpa [storeLookup, hk] using h
      simpa [storeLookup, hk] using ih h'

/-- Lemma: `storeUpsert` makes the row visible under its identity. -/
theorem lookup_storeUpsert_self (st : Store) (id : Int) (o : Order) :
    storeLookup (storeUpsert st id o) id = some o := by
  unfold storeUpsert
  by_cases h : (storeLookup st id).isSome
  · rw [if_pos h]
    exact lookup_replace st id o h
  · rw [if_neg h]
    simp [storeLookup]

/-- The re-check loop only ever produces errors annotated with the failing
item's product identity. -/
theorem itemStockError_shape (gs : Int → GetResult StockBody)
    (r : OrderRequest) (e : SvcError) (h : itemStockError gs r = some e) :
    e = .insufficientStock r.productID ∨
      ∃ ge, e = .stockCheckFailed r.productID ge := by
  unfold itemStockError at h
  cases hc : checkProductStock gs r.productID r.quantity with
  | mk avail err =>
    rw [hc] at h
    cases err with
    | some ge =>
      cases h
      exact Or.inr ⟨ge, rfl⟩
    | none =>
      cases avail with
      | true => simp at h
      | false =>
        simp at h
        exact Or.inl h.symm

/-- If some line item fails the re-check, the loop stops at such an item
and reports its error. -/
theorem recheckStock_of_exists (gs : Int → GetResult StockBody)
    (l : List OrderRequest)
    (h : ∃ r ∈ l, (itemStockError gs r).isSome = true) :
    ∃ r ∈ l, ∃ e, itemStockError gs r = some e ∧ recheckStock gs l = some e := by
  induction l with
  | nil => simp at h
  | cons r rest ih =>
    cases he : itemStockError gs r with
    | some e =>
      exact ⟨r, List.mem_cons_self r rest, e, he, by simp [recheckStock, he]⟩
    | none =>
      obtain ⟨r', hr', hs⟩ := h
      rcases List.mem_cons.mp hr' with heq | hmem
      · rw [heq, he] at hs
        simp at hs
      · obtain ⟨r'', hm, e, he', hrs⟩ := ih ⟨r', hmem, hs⟩
        exact ⟨r'', List.mem_cons_of_mem r hm, e, he', by simp [recheckStock, he, hrs]⟩

/-- Claim C1: the claim "the persisted order's total price equals the sum of
its line items' final prices" fails on the code. For the §8 scenario order
submitted with a caller-chosen total of 100, enrichment computes a running
total of 80 from the quotes, but `CreateOrder` never assigns that local
variable to the order: the persisted aggregate keeps the caller's total
100 while its line items' final prices sum to 0. -/
theorem createOrder_total_price_not_derived :
    drainLoop demoOrder.productRequests demoDrained 0 = .ok 80 ∧
    createOrderService demoEnc noFaults [] demoOrder demoDrained =
      (.ok { demoOrder with id := 1 }, [(1, storedDemo)],
       [⟨"order.created.1", demoEnc { demoOrder with id := 1 }⟩]) ∧
    storedDemo.totalPrice = 100 ∧
    (storedDemo.productRequests.map OrderRequest.finalPrice).sum = 0 ∧
    storedDemo.totalPrice ≠ (storedDemo.productRequests.map OrderRequest.finalPrice).sum := by
  decide

/-- Claim C2: the claim that matching line items carry the returned quote
fields fails on the code. The quote for product 10 (markup 0, discount 0,
final price 50) is delivered and an enriched copy of the matching line
item is built, but Go's `range` yields value copies, so the copy is
discarded: both the persisted and the returned line items still carry
final price 0. -/
theorem createOrder_enrichment_lost_on_value_copies :
    pricingWorker pricingOK req10 = some priceMsg10 ∧
    enrichCopy req10 priceMsg10 = ⟨0, 0, 10, 2, 0, 0, 50⟩ ∧
    (createOrderService demoEnc noFaults [] demoOrder demoDrained).1 =
      .ok { demoOrder with id := 1 } ∧
    storeLookup (createOrderService demoEnc noFaults [] demoOrder demoDrained).2.1 1 =
      some storedDemo ∧
    storedDemo.productRequests.head? = some { req10 with orderID := 1 } ∧
    ({ req10 with orderID := 1 } : OrderRequest).finalPrice = 0 ∧
    ({ req10 with orderID := 1 } : OrderRequest).markUp = 0 ∧
    (enrichCopy req10 priceMsg10).finalPrice ≠
      ({ req10 with orderID := 1 } : OrderRequest).finalPrice := by
  decide

/-- Claim C3: abort priorities (1) and (2) behave as claimed — an
availability error, then an insufficient-stock report, abort with the
error annotated with the product identity, with no persistence and no
publish — but priority (3) does not: a pricing-gateway failure makes
`getPricing` return its error with a nil quote pointer, the goroutine
dereferences that nil result, and the process panics before any message
reaches the drain loop, so the claimed pricing-error return never
happens. -/
theorem createOrder_pricing_error_worker_panics :
    createOrderService demoEnc noFaults [] demoOrder
        [(⟨10, false, some (.getFailed 10)⟩, priceMsg10),
         (availabilityWorker stockOK req20, priceMsg20)] =
      (.err (.stockCheckFailed 10 (.getFailed 10)), [], []) ∧
    createOrderService demoEnc noFaults [] demoOrder
        [(⟨10, false, none⟩, priceMsg10),
         (availabilityWorker stockOK req20, priceMsg20)] =
      (.err (.insufficientStock 10), [], []) ∧
    getPricing pricingBad 10 = .error (.badStatus 10 500) ∧
    pricingWorker pricingBad req10 = none := by
  decide

/-- Claim C4, counterexample: the claim "a cancelled order cannot be
transitioned to any other status by this core" is false. With order 1
stored as `cancelled`, `UpdateOrder` submitted for identity 1 with status
`updated` succeeds and the stored status becomes `updated`. -/
theorem cancelled_order_reactivated_by_update :
    cancelledStored.status = "cancelled" ∧
    updateOrderService demoEnc noFaults demoGateways [(1, cancelledStored)] reactivated =
      (.ok reactivated, [(1, reactivated)],
       [⟨"order.updated.1", demoEnc reactivated⟩]) ∧
    reactivated.status = "updated" := by
  decide

/-- Claim C4, amended: cancellation is not enforced as terminal. `CancelOrder`
itself only ever produces an order whose status is `cancelled`, but
`UpdateOrder` never reads the stored status and persists the
caller-supplied order unconditionally (subject only to the paid-state
stock re-check), so an update can move a cancelled order back to another
status. -/
theorem update_overwrites_status_unconditionally (enc : Order → String)
    (g : Gateways) (st : Store) (o : Order) (h : o.status ≠ "Paid") :
    (updateOrderService enc noFaults g st o).1 = .ok o ∧
    storeLookup (updateOrderService enc noFaults g st o).2.1 o.id = some o ∧
    ∀ id o', (cancelOrderService enc noFaults st id).1 = .ok o' →
      o'.status = "cancelled" := by
  have hres : updateOrderService enc noFaults g st o =
      (.ok o, storeUpsert st o.id o, [publishOrderCreatedEvent enc o "updated"]) := by
    unfold updateOrderService
    simp [h, repoUpdateOrder, noFaults]
  refine ⟨by rw [hres], by rw [hres]; exact lookup_storeUpsert_self st o.id o, ?_⟩
  intro id o' hc
  unfold cancelOrderService at hc
  simp only [repoGetOrderByID, noFaults, Bool.false_eq_true, if_false] at hc
  cases hl : storeLookup st id with
  | none =>
    rw [hl] at hc
    simp at hc
  | some ord =>
    rw [hl] at hc
    simp only [repoUpdateOrder, Bool.false_eq_true, if_false] at hc
    simp at hc
    rw [← hc]

theorem update_overwrites_status_unconditionally_witness :
    (updateOrderService demoEnc noFaults demoGateways [(1, cancelledStored)]
        reactivated).1 = .ok reactivated :=
  (update_overwrites_status_unconditionally demoEnc demoGateways
    [(1, cancelledStored)] reactivated (by decide)).1

/-- Claim C5: when the submitted status is the paid state, `UpdateOrder`
consults only the stock gateway — its result is invariant under any change
of the pricing gateway — and (a) if any line item's re-check errors or
reports insufficient stock, it returns an error annotated with a failing
item's product identity, leaving the store untouched and publishing
nothing; (b) if it returns successfully, every line item passed the
re-check. -/
theorem updateOrder_paid_recheck_guards_persistence (enc : Order → String)
    (f : Faults) (gs : Int → GetResult StockBody)
    (gp gp' : Int → GetResult Pricing) (st : Store) (o : Order)
    (hPaid : o.status = "Paid") :
    updateOrderService enc f ⟨gs, gp⟩ st o = updateOrderService enc f ⟨gs, gp'⟩ st o ∧
    ((∃ r ∈ o.productRequests, (itemStockError gs r).isSome = true) →
      ∃ r ∈ o.productRequests, ∃ e, itemStockError gs r = some e ∧
        (e = .insufficientStock r.productID ∨
          ∃ ge, e = .stockCheckFailed r.productID ge) ∧
        updateOrderService enc f ⟨gs, gp⟩ st o = (.err e, st, [])) ∧
    (∀ res st' msgs, updateOrderService enc f ⟨gs, gp⟩ st o = (.ok res, st', msgs) →
      ∀ r ∈ o.productRequests, itemStockError gs r = none) := by
  refine ⟨rfl, ?_, ?_⟩
  · intro hfail
    obtain ⟨r, hr, e, he, hrs⟩ := recheckStock_of_exists gs o.productRequests hfail
    refine ⟨r, hr, e, he, itemStockError_shape gs r e he, ?_⟩
    unfold updateOrderService
    simp [hPaid, hrs]
  · intro res st' msgs hok r hr
    cases he : itemStockError gs r with
    | none => rfl
    | some e =>
      obtain ⟨r', hr', e', he', hrs⟩ :=
        recheckStock_of_exists gs o.productRequests ⟨r, hr, by simp [he]⟩
      rw [show updateOrderService enc f ⟨gs, gp⟩ st o = (.err e', st, []) by
            unfold updateOrderService; simp [hPaid, hrs]] at hok
      exact absurd hok (by simp)

theorem updateOrder_paid_recheck_guards_persistence_witness :
    updateOrderService demoEnc noFaults ⟨stockEmpty, pricingOK⟩ [] paidOrder =
      updateOrderService demoEnc noFaults ⟨stockEmpty, pricingBad⟩ [] paidOrder ∧
    ∃ r ∈ paidOrder.productRequests, ∃ e, itemStockError stockEmpty r = some e ∧
      (e = .insufficientStock r.productID ∨
        ∃ ge, e = .stockCheckFailed r.productID ge) ∧
      updateOrderService demoEnc noFaults ⟨stockEmpty, pricingOK⟩ [] paidOrder =
        (.err e, [], []) :=
  ⟨(updateOrder_paid_recheck_guards_persistence demoEnc noFaults stockEmpty
      pricingOK pricingBad [] paidOrder rfl).1,
   (updateOrder_paid_recheck_guards_persistence demoEnc noFaults stockEmpty
      pricingOK pricingBad [] paidOrder rfl).2.1 ⟨req10, by decide, by decide⟩⟩

/-- Claim C6: cancelling an identity absent from the store returns the
not-found error naming that identity, with no write and no publish. -/
theorem cancelOrder_missing_order_not_found (enc : Order → String) (f : Faults)
    (st : Store) (orderId : Int) (hg : f.getFail = false)
    (h : storeLookup st orderId = none) :
    cancelOrderService enc f st orderId = (.err (.orderNotFound orderId), st, []) := by
  unfold cancelOrderService
  simp [repoGetOrderByID, hg, h]

theorem cancelOrder_missing_order_not_found_witness :
    cancelOrderService demoEnc noFaults [] 99 = (.err (.orderNotFound 99), [], []) :=
  cancelOrder_missing_order_not_found demoEnc noFaults [] 99 rfl rfl

/-- Claim C7: for each operation, a persistence failure returns the
persistence error with no publish and the store unchanged; a publish
failure after successful persistence returns the publish error while the
committed write stays in the store (no compensating rollback). -/
theorem persistence_and_publish_failure_semantics (enc : Order → String)
    (st : Store) (order : Order)
    (drained : List (AvailabilityChannel × PricingChannel)) (g : Gateways)
    (orderId : Int) (o : Order) (t : Int) (b₁ b₂ b₃ : Bool)
    (hdrain : drainLoop order.productRequests drained 0 = .ok t)
    (hgate : (if order.status = "Paid" then recheckStock g.stock order.productRequests
              else none) = none)
    (hget : storeLookup st orderId = some o) :
    createOrderService enc ⟨true, b₁, b₂, b₃⟩ st order drained =
      (.err .txFailed, st, []) ∧
    createOrderService enc ⟨false, b₁, b₂, true⟩ st order drained =
      (.err (.publishFailed "created"), createdAggregate st order :: st, []) ∧
    updateOrderService enc ⟨b₁, b₂, true, b₃⟩ g st order =
      (.err .updateFailed, st, []) ∧
    updateOrderService enc ⟨b₁, b₂, false, true⟩ g st order =
      (.err (.publishFailed "updated"), storeUpsert st order.id order, []) ∧
    cancelOrderService enc ⟨b₁, false, true, b₃⟩ st orderId =
      (.err .cancelFailed, st, []) ∧
    cancelOrderService enc ⟨b₁, false, false, true⟩ st orderId =
      (.err (.publishFailed "cancelled"),
       storeUpsert st o.id { o with status := "cancelled" }, []) := by
  refine ⟨?_, ?_, ?_, ?_, ?_, ?_⟩
  · unfold createOrderService
    simp [hdrain, repoCreateTxn]
  · unfold createOrderService
    simp [hdrain, repoCreateTxn]
  · unfold updateOrderService
    simp only [hgate]
    simp [repoUpdateOrder]
  · unfold updateOrderService
    simp only [hgate]
    simp [repoUpdateOrder]
  · unfold cancelOrderService
    simp [repoGetOrderByID, hget, repoUpdateOrder]
  · unfold cancelOrderService
    simp [repoGetOrderByID, hget, repoUpdateOrder]

theorem persistence_and_publish_failure_semantics_witness :
    cancelOrderService demoEnc ⟨false, false, false, true⟩ [(1, cancelledStored)] 1 =
      (.err (.publishFailed "cancelled"),
       storeUpsert [(1, cancelledStored)] cancelledStored.id
         { cancelledStored with status := "cancelled" }, []) ∧
    createOrderService demoEnc ⟨true, false, false, false⟩ [(1, cancelledStored)]
        demoOrder demoDrained = (.err .txFailed, [(1, cancelledStored)], []) :=
  ⟨(persistence_and_publish_failure_semantics demoEnc [(1, cancelledStored)]
      demoOrder demoDrained demoGateways 1 cancelledStored 80 false false false
      (by decide) (by decide) (by decide)).2.2.2.2.2,
   (persistence_and_publish_failure_semantics demoEnc [(1, cancelledStored)]
      demoOrder demoDrained demoGateways 1 cancelledStored 80 false false false
      (by decide) (by decide) (by decide)).1⟩

/-- A successful create delivers exactly the one `created` message built by
the publisher from the returned order. -/
theorem createOrderService_ok_msgs (enc : Order → String) (f : Faults)
    (st : Store) (order : Order)
    (drained : List (AvailabilityChannel × PricingChannel))
    (o : Order) (st' : Store) (msgs : List KafkaMessage)
    (h : createOrderService enc f st order drained = (.ok o, st', msgs)) :
    msgs = [publishOrderCreatedEvent enc o "created"] := by
  unfold createOrderService at h
  cases hd : drainLoop order.productRequests drained 0 <;> rw [hd] at h
  · exact absurd h (by simp)
  · cases hrc : repoCreateTxn f.txFail st order <;> rw [hrc] at h
    · exact absurd h (by simp)
    · rename_i pr
      obtain ⟨newId, stNew⟩ := pr
      by_cases hp : f.publishFail <;> simp [hp] at h
      rw [← h.1, ← h.2.2]

/-- A successful update delivers exactly the one `updated` message built by
the publisher from the returned order. -/
theorem updateOrderService_ok_msgs (enc : Order → String) (f : Faults)
    (g : Gateways) (st : Store) (order : Order)
    (o : Order) (st' : Store) (msgs : List KafkaMessage)
    (h : updateOrderService enc f g st order = (.ok o, st', msgs)) :
    msgs = [publishOrderCreatedEvent enc o "updated"] := by
  unfold updateOrderService at h
  cases hg : (if order.status = "Paid" then recheckStock g.stock order.productRequests
              else none) <;> simp only [hg] at h
  · cases hru : repoUpdateOrder f.updateFail st order <;> rw [hru] at h
    · exact absurd h (by simp)
    · rename_i pr
      obtain ⟨row, stNew⟩ := pr
      cases row with
      | none => simp at h
      | some updatedOrder =>
        by_cases hp : f.publishFail <;> simp [hp] at h
        rw [← h.1, ← h.2.2]
  · exact absurd h (by simp)

/-- A successful cancel delivers exactly the one `cancelled` message built
by the publisher from the returned order. -/
theorem cancelOrderService_ok_msgs (enc : Order → String) (f : Faults)
    (st : Store) (orderId : Int)
    (o : Order) (st' : Store) (msgs : List KafkaMessage)
    (h : cancelOrderService enc f st orderId = (.ok o, st', msgs)) :
    msgs = [publishOrderCreatedEvent enc o "cancelled"] := by
  unfold cancelOrderService at h
  cases hgr : repoGetOrderByID f.getFail st orderId <;> rw [hgr] at h
  · exact absurd h (by simp)
  · rename_i row
    cases row with
    | none => simp at h
    | some order =>
      simp only at h
      cases hru : repoUpdateOrder f.updateFail st { order with status := "cancelled" } <;>
        rw [hru] at h
      · exact absurd h (by simp)
      · rename_i pr
        obtain ⟨row', stNew⟩ := pr
        cases row' with
        | none => simp at h
        | some cancelledOrder =>
          by_cases hp : f.publishFail <;> simp [hp] at h
          rw [← h.1, ← h.2.2]

/-- Claim C8: every successful lifecycle transition delivers exactly one
message, keyed `order.<keyword>.<id>` from the transition keyword and the
returned order's identity, whose payload is the serialized order. -/
theorem event_key_and_payload_per_transition (enc : Order → String) (f : Faults)
    (st : Store) (order : Order)
    (drained : List (AvailabilityChannel × PricingChannel)) (g : Gateways)
    (orderId : Int) :
    (∀ o st' msgs, createOrderService enc f st order drained = (.ok o, st', msgs) →
      msgs = [⟨"order.created." ++ toString o.id, enc o⟩]) ∧
    (∀ o st' msgs, updateOrderService enc f g st order = (.ok o, st', msgs) →
      msgs = [⟨"order.updated." ++ toString o.id, enc o⟩]) ∧
    (∀ o st' msgs, cancelOrderService enc f st orderId = (.ok o, st', msgs) →
      msgs = [⟨"order.cancelled." ++ toString o.id, enc o⟩]) := by
  refine ⟨?_, ?_, ?_⟩ <;> intro o st' msgs h
  · rw [createOrderService_ok_msgs enc f st order drained o st' msgs h]
    unfold publishOrderCreatedEvent
    rw [show ("order." ++ "created" ++ "." : String) = "order.created." by decide]
  · rw [updateOrderService_ok_msgs enc f g st order o st' msgs h]
    unfold publishOrderCreatedEvent
    rw [show ("order." ++ "updated" ++ "." : String) = "order.updated." by decide]
  · rw [cancelOrderService_ok_msgs enc f st orderId o st' msgs h]
    unfold publishOrderCreatedEvent
    rw [show ("order." ++ "cancelled" ++ "." : String) = "order.cancelled." by decide]

theorem event_key_and_payload_per_transition_witness :
    [(⟨"order.created.1", demoEnc { demoOrder with id := 1 }⟩ : KafkaMessage)] =
      [⟨"order.created." ++ toString ({ demoOrder with id := 1 } : Order).id,
        demoEnc { demoOrder with id := 1 }⟩] :=
  (event_key_and_payload_per_transition demoEnc noFaults [] demoOrder demoDrained
    demoGateways 1).1 { demoOrder with id := 1 } [(1, storedDemo)]
    [⟨"order.created.1", demoEnc { demoOrder with id := 1 }⟩] (by decide)

/-- Claim C9: the stock check reports availability exactly when a 200
response decodes to a body whose `stock` integer is at least the requested
quantity; a non-200 status or a body that fails to decode yields a gateway
error with availability `false`. -/
theorem stock_check_availability_semantics (gs : Int → GetResult StockBody)
    (productID quantity : Int) :
    ((checkProductStock gs productID quantity).1 = true ↔
      ∃ body s, gs productID = .response 200 (some body) ∧
        body.lookup "stock" = some s ∧ s ≥ quantity) ∧
    (∀ code body, gs productID = .response code body → code ≠ 200 →
      checkProductStock gs productID quantity =
        (false, some (.badStatus productID code))) ∧
    (gs productID = .response 200 none →
      checkProductStock gs productID quantity =
        (false, some (.decodeFailed productID))) := by
  refine ⟨?_, ?_, ?_⟩
  · unfold checkProductStock
    cases hg : gs productID with
    | transportError => simp
    | response code body =>
      by_cases hc : code = 200
      · subst hc
        simp only [ne_eq, not_true_eq_false, if_false, reduceIte]
        cases body with
        | none => simp
        | some sb =>
          cases hl : sb.lookup "stock" with
          | none => simp [hl]
          | some s₀ => simp [hl, decide_eq_true_eq]
      · simp [hc]
  · intro code body hg hcode
    unfold checkProductStock
    rw [hg]
    simp [hcode]
  · intro hg
    unfold checkProductStock
    rw [hg]
    simp

theorem stock_check_availability_semantics_witness :
    (checkProductStock stockOK 10 2).1 = true ∧
    checkProductStock (fun _ => .response 500 (some [])) 10 2 =
      (false, some (.badStatus 10 500)) ∧
    checkProductStock (fun _ => .response 200 none) 10 2 =
      (false, some (.decodeFailed 10)) :=
  ⟨(stock_check_availability_semantics stockOK 10 2).1.mpr
      ⟨[("stock", 5)], 5, rfl, rfl, by decide⟩,
   (stock_check_availability_semantics (fun _ => .response 500 (some [])) 10 2).2.1
      500 (some []) rfl (by decide),
   (stock_check_availability_semantics (fun _ => .response 200 none) 10 2).2.2 rfl⟩

/-- Claim C10: the operation `CancelOrder` never inspects the fetched order's current
status: for any stored order — an already-cancelled one included — it
succeeds, writes the order back with status `cancelled` (idempotent on the
persisted status), and delivers one more `order.cancelled.<id>` message; a
second cancel of the resulting store succeeds again and delivers one more
such message. -/
theorem cancelOrder_ignores_current_status (enc : Order → String) (st : Store)
    (orderId : Int) (o : Order) (h : storeLookup st orderId = some o)
    (hid : o.id = orderId) :
    cancelOrderService enc noFaults st orderId =
      (.ok { o with status := "cancelled" },
       storeUpsert st orderId { o with status := "cancelled" },
       [⟨"order.cancelled." ++ toString orderId,
         enc { o with status := "cancelled" }⟩]) ∧
    storeLookup (storeUpsert st orderId { o with status := "cancelled" }) orderId =
      some { o with status := "cancelled" } ∧
    cancelOrderService enc noFaults
        (storeUpsert st orderId { o with status := "cancelled" }) orderId =
      (.ok { o with status := "cancelled" },
       storeUpsert (storeUpsert st orderId { o with status := "cancelled" }) orderId
         { o with status := "cancelled" },
       [⟨"order.cancelled." ++ toString orderId,
         enc { o with status := "cancelled" }⟩]) := by
  have key : ("order." ++ "cancelled" ++ "." : String) ++ toString orderId =
      "order.cancelled." ++ toString orderId := by
    rw [show ("order." ++ "cancelled" ++ "." : String) = "order.cancelled." by decide]
  have call : ∀ (st₀ : Store) (ord : Order), storeLookup st₀ orderId = some ord →
      ord.id = orderId →
      cancelOrderService enc noFaults st₀ orderId =
        (.ok { ord with status := "cancelled" },
         storeUpsert st₀ orderId { ord with status := "cancelled" },
         [⟨"order.cancelled." ++ toString orderId,
           enc { ord with status := "cancelled" }⟩]) := by
    intro st₀ ord h₀ hid₀
    unfold cancelOrderService
    simp [repoGetOrderByID, noFaults, h₀, repoUpdateOrder,
          publishOrderCreatedEvent, hid₀, key]
  refine ⟨call st o h hid, lookup_storeUpsert_self st orderId _, ?_⟩
  exact call (storeUpsert st orderId { o with status := "cancelled" })
    { o with status := "cancelled" } (lookup_storeUpsert_self st orderId _) hid

theorem cancelOrder_ignores_current_status_witness :
    cancelOrderService demoEnc noFaults [(1, cancelledStored)] 1 =
      (.ok { cancelledStored with status := "cancelled" },
       storeUpsert [(1, cancelledStored)] 1
         { cancelledStored with status := "cancelled" },
       [⟨"order.cancelled." ++ toString (1 : Int),
         demoEnc { cancelledStored with status := "cancelled" }⟩]) :=
  (cancelOrder_ignores_current_status demoEnc [(1, cancelledStored)] 1
    cancelledStored (by decide) rfl).1

end OrderSvc
